import Mathlib

/-!
Verification of the `beam_py` pulsar beam simulator against its
natural-language specification.  The development shallowly embeds the two
source files, `generateBeam.py` and `rvm.py`, into Lean 4: exact rational
arithmetic models the discrete/index-level code, and real arithmetic with
`Real.sin`, `Real.cos`, `Real.arctan`, `Real.exp`, `Real.sqrt` models the
floating-point trigonometric formulas.  Functions of the `beamModel`
module, which the repository imports but whose source is not available,
are either kept as explicit function parameters or modelled from the
specification (each such definition says so in its doc comment).
-/

namespace BeamPy

/-! ## Grid constants and index conversion (generateBeam.py lines 40-46, 89-92)

`xmin = -180.`, `xmax = 180.`, `res = 1e3`, `dx = (xmax - xmin)/res`, and
the 1D extractor computes `ZxIdx = np.array((xlos-xmin)/dx, dtype=int)`.
-/

def xmin : ℚ := -180

def xmax : ℚ := 180

def res : ℚ := 1000

def dx : ℚ := (xmax - xmin) / res

/-- Python `int()` applied to a real quantity truncates toward zero. -/
def pyint (q : ℚ) : ℤ :=
  if q < 0 then Int.ceil q else Int.floor q

/-- The x grid index the 1D extractor assigns to a line-of-sight
coordinate: `int((coord - xmin)/dx)` (generateBeam.py line 90).  The code
applies no clamping or validation to this value. -/
def zIdx (coord : ℚ) : ℤ := pyint ((coord - xmin) / dx)

/-! ## Scattering stage (generateBeam.py lines 175-187)

`if scr == None: sc_prof = prof` and otherwise the per-channel pipeline
pulsetrain → broadening → scatter → extractpulse.  The `beamModel`
functions are opaque to this file and enter as function parameters. -/

def scatterStage (pulsetrain : List ℚ → List ℚ) (sc_time : ℕ → ℚ)
    (broadening : ℚ → List ℚ) (scatterFn : List ℚ → List ℚ → List ℚ)
    (extractpulse : List ℚ → List ℚ)
    (scr : Option Unit) (prof : List (List ℚ)) : List (List ℚ) :=
  match scr with
  | none => prof
  | some _ =>
      let train := prof.map pulsetrain
      (List.range prof.length).map fun fid =>
        extractpulse (scatterFn (train.getD fid []) (broadening (sc_time fid)))

/-! ## Best-DM selection loop (generateBeam.py lines 219-221)

```
for i in range(len(peaks_of_average)):
    if peaks_of_average[i] == np.max(peaks_of_average):
       best_dm = dm_range[i]
```
-/

/-- Binary maximum on ℚ, written out so that it evaluates by kernel
reduction (it agrees with `max`, see `qmax_eq_max`). -/
def qmax (a b : ℚ) : ℚ := if a ≤ b then b else a

theorem qmax_eq_max (a b : ℚ) : qmax a b = max a b := (max_def a b).symm

/-- NumPy `np.max` over a nonempty list of samples (0 on the empty list, on which
NumPy would raise). -/
def listMax (l : List ℚ) : ℚ := l.foldl qmax (l.headD 0)

/-- The selection loop: iterate over `(peak, dm)` pairs, overwriting the
accumulator whenever the peak equals the precomputed maximum. -/
def bestDmLoop (mx : ℚ) : List (ℚ × ℚ) → Option ℚ → Option ℚ
  | [], acc => acc
  | p :: rest, acc => bestDmLoop mx rest (if p.1 = mx then some p.2 else acc)

/-- The value `best_dm` as left behind by the loop on lines 219-221 (`none` models the
Python `NameError` state in which no iteration assigned it). -/
def best_dm (peaks dms : List ℚ) : Option ℚ :=
  bestDmLoop (listMax peaks) (peaks.zip dms) none

/-- The spec's selection rule, stated as written: the FIRST trial value
whose peak attains the maximum. -/
def firstTieSelect (peaks dms : List ℚ) : Option ℚ :=
  (((peaks.zip dms).filter fun p => decide (p.1 = listMax peaks)).head?).map Prod.snd

/-- The amended selection rule: the LAST trial value whose peak attains the
maximum. -/
def lastTieSelect (peaks dms : List ℚ) : Option ℚ :=
  (((peaks.zip dms).filter fun p => decide (p.1 = listMax peaks)).getLast?).map Prod.snd

theorem bestDmLoop_eq (mx : ℚ) (l : List (ℚ × ℚ)) (acc : Option ℚ) :
    bestDmLoop mx l acc =
      match (l.filter fun p => decide (p.1 = mx)).getLast? with
      | some p => some p.2
      | none => acc := by
  induction l generalizing acc with
  | nil => rfl
  | cons a rest ih =>
      rw [bestDmLoop, ih, List.filter_cons]
      by_cases h : a.1 = mx
      · rw [decide_eq_true h, if_pos rfl, if_pos h]
        cases hfr : rest.filter (fun p => decide (p.1 = mx)) with
        | nil => simp
        | cons b t =>
            rw [List.getLast?_cons_cons]
            cases hl : (b :: t).getLast? with
            | some p => rfl
            | none => exact absurd hl (by simp)
      · rw [decide_eq_false h, if_neg h, if_neg Bool.false_ne_true]

/-! ## DM-search shift-and-average loop (generateBeam.py lines 211-217)

```
for freq_id in range(nch-1):
    bin_shift = bm.delay(freq[nch - 1], freq[freq_id], dm_range[dm_id], t_res)
    shifted_profile.append(np.roll(profile[freq_id], bin_shift))
average_profile.append(bm.avg_prof(shifted_profile))
peaks_of_average.append(bm.find_peak(average_profile[dm_id]))
```
The delay for one trial DM is a function of the channel id; it stays
abstract (`bm.delay` is not in the sources). -/

/-- NumPy `np.roll`: output sample `i` is input sample `(i - s) mod n`. -/
def roll (l : List ℚ) (s : ℤ) : List ℚ :=
  List.ofFn fun i : Fin l.length =>
    l.get ⟨(((i : ℤ) - s) % (l.length : ℤ)).toNat, by
      have hn : (0 : ℤ) < (l.length : ℤ) := by exact_mod_cast i.pos
      have h1 : 0 ≤ ((i : ℤ) - s) % (l.length : ℤ) :=
        Int.emod_nonneg _ (by omega)
      have h2 : ((i : ℤ) - s) % (l.length : ℤ) < (l.length : ℤ) :=
        Int.emod_lt_of_pos _ hn
      omega⟩

/-- Modelled from the spec (`bm.avg_prof` of the absent `beamModel`
module): "average the shifted profiles across channels" — the elementwise
mean over the listed channel profiles. -/
def avg_prof (ps : List (List ℚ)) : List ℚ :=
  match ps with
  | [] => []
  | p :: _ =>
      (List.range p.length).map fun i =>
        ((ps.map fun q => q.getD i 0).sum) / (ps.length : ℚ)

/-- Modelled from the spec (`bm.find_peak` of the absent `beamModel`
module): "the averaged profile's peak" — the maximum sample. -/
def find_peak (p : List ℚ) : ℚ := listMax p

/-- The list of shifted channel profiles the code builds for one trial DM:
only channel ids `0 .. nch-2` are rolled and collected. -/
def shiftedProfileCode (delay : ℕ → ℤ) (profile : List (List ℚ)) (nch : ℕ) :
    List (List ℚ) :=
  (List.range (nch - 1)).map fun fid => roll (profile.getD fid []) (delay fid)

/-- The recorded peak for one trial DM, as the code computes it. -/
def trialPeakCode (delay : ℕ → ℤ) (profile : List (List ℚ)) (nch : ℕ) : ℚ :=
  find_peak (avg_prof (shiftedProfileCode delay profile nch))

/-- The claim's version: all `nch` channels (the zero-shift reference
included) are rolled and averaged. -/
def shiftedProfileSpec (delay : ℕ → ℤ) (profile : List (List ℚ)) (nch : ℕ) :
    List (List ℚ) :=
  (List.range nch).map fun fid => roll (profile.getD fid []) (delay fid)

/-- The recorded peak per the claim's reading. -/
def trialPeakSpec (delay : ℕ → ℤ) (profile : List (List ℚ)) (nch : ℕ) : ℚ :=
  find_peak (avg_prof (shiftedProfileSpec delay profile nch))

/-! ## Output record (generateBeam.py lines 162-167 and 226-228)

The per-frequency loop appends `bm.find_width(pr)` to `w10` straight from
the freshly generated profile, before the scattering and noise stages run;
the record written is `[P, alpha, beta, w10[0], w10[-1], iseed, best_dm]`. -/

def pipelineRecord (genProf : ℕ → List ℚ) (find_width : List ℚ → ℚ)
    (scatterPipe : List (List ℚ) → List (List ℚ))
    (noisePipe : ℚ → List (List ℚ) → List (List ℚ))
    (dmFit : List (List ℚ) → ℚ) (nch : ℕ) (scr : Option Unit) (snr : Option ℚ)
    (P alpha beta iseed : ℚ) : List ℚ :=
  let prof := (List.range nch).map genProf
  let w10 := prof.map find_width
  let sc_prof := match scr with
    | none => prof
    | some _ => scatterPipe prof
  let profile := match snr with
    | none => sc_prof
    | some s => noisePipe s sc_prof
  [P, alpha, beta, w10.headD 0, w10.getLastD 0, iseed, dmFit profile]

/-! ## Theorems for the discrete-level claims -/

/-- C2: the claim says the grid indices `int((coord - xmin)/dx)` of the 1D
profile extractor are clamped or validated into `[0, resolution - 1]`, so
the gather `Z[ZxIdx, ZyIdx]` always succeeds.  The code contains no clamp:
at the boundary line-of-sight coordinate 180° the computed x index is
1000, outside the valid range `[0, 999]` of the 1000-cell grid, so the
gather is out of bounds.  This theorem evaluates the code's index
computation at that failing input. -/
theorem C2_boundary_index_escapes_grid :
    zIdx 180 = 1000 ∧ ¬ zIdx 180 ≤ 999 := by
  constructor
  · show pyint ((180 - xmin) / dx) = 1000
    norm_num [pyint, dx, xmin, xmax, res]
  · show ¬ pyint ((180 - xmin) / dx) ≤ 999
    norm_num [pyint, dx, xmin, xmax, res]

/-- C3 counterexample: the claim says that on ties the FIRST trial DM
attaining the maximal averaged peak is selected.  With peaks `[5, 5]` and
trial DMs `[1, 2]` both trials attain the maximum, the first such trial
value is 1, yet the loop leaves `best_dm = 2`. -/
theorem C3_counterexample :
    best_dm [5, 5] [1, 2] = some 2 ∧ firstTieSelect [5, 5] [1, 2] = some 1 ∧
      some (2 : ℚ) ≠ some (1 : ℚ) := by decide

/-- C3 amended: the selection loop overwrites `best_dm` at every index
whose peak equals the maximum, so the selected value is the LAST trial DM
in `dm_range` order attaining the maximal averaged peak (last occurrence
on ties), not the first. -/
theorem C3_last_occurrence_selected (peaks dms : List ℚ) :
    best_dm peaks dms = lastTieSelect peaks dms := by
  unfold best_dm lastTieSelect
  rw [bestDmLoop_eq]
  cases ((peaks.zip dms).filter fun p => decide (p.1 = listMax peaks)).getLast? with
  | none => rfl
  | some p => rfl

/-- C4 counterexample: the claim says the recorded peak for a trial DM is
the peak of the average over all `nch` shifted channel profiles, the
reference channel included.  With `nch = 2`, channel profiles
`[[0, 1], [5, 0]]` and zero bin shifts, the code averages only channel 0
and records peak 1, while averaging all channels (the claim's reading)
would record peak 5/2. -/
theorem C4_counterexample :
    trialPeakCode (fun _ => 0) [[0, 1], [5, 0]] 2 = 1 ∧
      trialPeakSpec (fun _ => 0) [[0, 1], [5, 0]] 2 = 5 / 2 ∧
      (1 : ℚ) ≠ 5 / 2 := by
  have hroll1 : roll [0, 1] 0 = ([0, 1] : List ℚ) := by decide
  have hroll2 : roll [5, 0] 0 = ([5, 0] : List ℚ) := by decide
  refine ⟨?_, ?_, by norm_num⟩
  · simp [trialPeakCode, shiftedProfileCode, List.range_succ, hroll1,
      avg_prof, find_peak, listMax, qmax]
  · simp [trialPeakSpec, shiftedProfileSpec, List.range_succ, hroll1, hroll2,
      avg_prof, find_peak, listMax, qmax]
    norm_num

/-- C4 amended: for every trial DM the code rolls and averages only the
first `nch - 1` channel profiles; the reference (highest-frequency)
channel is excluded, and replacing its profile by anything leaves the
recorded peak unchanged. -/
theorem C4_reference_channel_excluded (delay : ℕ → ℤ) (profile : List (List ℚ))
    (v : List ℚ) (nch : ℕ) :
    (shiftedProfileCode delay profile nch).length = nch - 1 ∧
      trialPeakCode delay (profile.set (nch - 1) v) nch =
        trialPeakCode delay profile nch := by
  constructor
  · simp [shiftedProfileCode]
  · unfold trialPeakCode shiftedProfileCode
    have hmap : ∀ fid ∈ List.range (nch - 1),
        roll ((profile.set (nch - 1) v).getD fid []) (delay fid) =
          roll (profile.getD fid []) (delay fid) := by
      intro fid hfid
      have hlt : fid < nch - 1 := List.mem_range.mp hfid
      have hne : nch - 1 ≠ fid := by omega
      rw [List.getD_eq_getD_get?, List.getD_eq_getD_get?, List.get?_eq_getElem?,
        List.get?_eq_getElem?, List.getElem?_set_ne hne]
    rw [List.map_congr_left hmap]

/-- C8: with the scattering flag unset (`scr == None`), the scattering
stage is an identity pass-through: `sc_prof` is exactly `prof`, and none
of the pulse-train, broadening, or convolution steps run, whatever those
`beamModel` collaborators compute. -/
theorem C8_scatter_pass_through (pulsetrain : List ℚ → List ℚ) (sc_time : ℕ → ℚ)
    (broadening : ℚ → List ℚ) (scatterFn : List ℚ → List ℚ → List ℚ)
    (extractpulse : List ℚ → List ℚ) (prof : List (List ℚ)) :
    scatterStage pulsetrain sc_time broadening scatterFn extractpulse none prof
      = prof := rfl

/-- C10: the two 10%-peak widths written to the output record (fields 3
and 4, `w10[0]` and `w10[-1]`) are computed from the freshly extracted
profiles before the scattering and noise stages; enabling the scattering
flag or setting an SNR leaves the written width values unchanged. -/
theorem C10_widths_unaffected_by_scatter_and_noise (genProf : ℕ → List ℚ)
    (find_width : List ℚ → ℚ) (scatterPipe : List (List ℚ) → List (List ℚ))
    (noisePipe : ℚ → List (List ℚ) → List (List ℚ))
    (dmFit : List (List ℚ) → ℚ) (nch : ℕ) (scr : Option Unit) (snr : Option ℚ)
    (P alpha beta iseed : ℚ) :
    (pipelineRecord genProf find_width scatterPipe noisePipe dmFit nch scr snr
        P alpha beta iseed).getD 3 0 =
      (pipelineRecord genProf find_width scatterPipe noisePipe dmFit nch none none
        P alpha beta iseed).getD 3 0 ∧
    (pipelineRecord genProf find_width scatterPipe noisePipe dmFit nch scr snr
        P alpha beta iseed).getD 4 0 =
      (pipelineRecord genProf find_width scatterPipe noisePipe dmFit nch none none
        P alpha beta iseed).getD 4 0 := by
  cases scr <;> cases snr <;> exact ⟨rfl, rfl⟩

end BeamPy

namespace BeamPy

noncomputable section

/-! ## 2D beam synthesizer (generateBeam.py lines 66-87)

For each component and each patch center `pc`, the code computes

```
distance = (np.sqrt((X - pc[0])**2 + (Y - pc[1])**2))/sigmax
distance[np.where(distance > 3.0)] = 0.0
distance[np.where(distance != 0.0)] = peakAmp          # peakAmp = 1.
Z += distance * np.exp(-((X - pc[0])**2 / (2 * sigmax**2)
                         + (Y - pc[1])**2 / (2 * sigmay**2)))
```

and when `do_ab` is set the exponent uses `X - pc[0] - ab_xofset[cid]` and
`Y - pc[1] - ab_yofset[cid]` instead, while `distance` stays as above. -/

/-- One cell of the `distance` grid of line 81 (in units of the width). -/
def distGrid (X Y cx cy sigmax : ℝ) : ℝ :=
  Real.sqrt ((X - cx) ^ 2 + (Y - cy) ^ 2) / sigmax

/-- The two in-place updates of lines 82-83: zero cells farther than 3
widths, then set every remaining non-zero cell to `peakAmp = 1`. -/
def hardCutoff (d : ℝ) : ℝ :=
  let d1 := if 3 < d then 0 else d
  if d1 ≠ 0 then 1 else d1

/-- The Gaussian patch kernel `exp(-((X-cx)²/(2σx²) + (Y-cy)²/(2σy²)))`. -/
def gaussKernel (X Y cx cy sigmax sigmay : ℝ) : ℝ :=
  Real.exp (-((X - cx) ^ 2 / (2 * sigmax ^ 2) + (Y - cy) ^ 2 / (2 * sigmay ^ 2)))

/-- The additive contribution of one patch to one grid cell `(X, Y)`
(lines 81-87): the cutoff indicator times the Gaussian, whose center the
aberration offsets shift when `do_ab` is set. -/
def patchContrib (do_ab : Option Unit) (abx aby cx cy sigmax sigmay X Y : ℝ) : ℝ :=
  match do_ab with
  | none =>
      hardCutoff (distGrid X Y cx cy sigmax) *
        Real.exp (-((X - cx) ^ 2 / (2 * sigmax ^ 2) +
          (Y - cy) ^ 2 / (2 * sigmay ^ 2)))
  | some _ =>
      hardCutoff (distGrid X Y cx cy sigmax) *
        Real.exp (-((X - cx - abx) ^ 2 / (2 * sigmax ^ 2) +
          (Y - cy - aby) ^ 2 / (2 * sigmay ^ 2)))

/-- The effective x center in the claim's sense: aberration-shifted when
aberration is enabled, nominal otherwise. -/
def effCenterX (do_ab : Option Unit) (cx abx : ℝ) : ℝ :=
  match do_ab with
  | none => cx
  | some _ => cx + abx

/-- The effective y center in the claim's sense. -/
def effCenterY (do_ab : Option Unit) (cy aby : ℝ) : ℝ :=
  match do_ab with
  | none => cy
  | some _ => cy + aby

/-- The claim's reading of the patch contribution: the Gaussian about the
effective center times an indicator that is 1 at every cell within 3σ of
that same effective center (the exact center included) and 0 beyond. -/
def specContrib (do_ab : Option Unit) (abx aby cx cy sigmax sigmay X Y : ℝ) : ℝ :=
  (if Real.sqrt ((X - effCenterX do_ab cx abx) ^ 2 +
      (Y - effCenterY do_ab cy aby) ^ 2) ≤ 3 * sigmax then 1 else 0) *
    gaussKernel X Y (effCenterX do_ab cx abx) (effCenterY do_ab cy aby) sigmax sigmay

/-- One emission component as the synthesizer consumes it: a patch width
(`sigmax = sigmay = patchwidths[cid]`), the per-height aberration offsets,
and the patch centers placed for that height. -/
structure BeamComp where
  width : ℝ
  abX : ℝ
  abY : ℝ
  centers : List (ℝ × ℝ)

/-- The accumulated 2D beam field `Z` at one grid cell: the sum of all
patch contributions of all components (lines 66-87). -/
def Zfield (do_ab : Option Unit) (comps : List BeamComp) (X Y : ℝ) : ℝ :=
  (comps.map fun c =>
    ((c.centers.map fun pc =>
      patchContrib do_ab c.abX c.abY pc.1 pc.2 c.width c.width X Y)).sum).sum

theorem hardCutoff_mem (d : ℝ) : hardCutoff d = 0 ∨ hardCutoff d = 1 := by
  simp only [hardCutoff]
  by_cases h3 : 3 < d
  · rw [if_pos h3]
    norm_num
  · rw [if_neg h3]
    by_cases h0 : d ≠ 0
    · rw [if_pos h0]
      right
      rfl
    · rw [if_neg h0]
      push_neg at h0
      left
      exact h0

theorem patchContrib_nonneg (do_ab : Option Unit)
    (abx aby cx cy sigmax sigmay X Y : ℝ) :
    0 ≤ patchContrib do_ab abx aby cx cy sigmax sigmay X Y := by
  cases do_ab <;>
    rcases hardCutoff_mem (distGrid X Y cx cy sigmax) with h | h <;>
      simp [patchContrib, h, (Real.exp_pos _).le]

theorem patchContrib_far_eq_zero (do_ab : Option Unit)
    (abx aby cx cy sigmax sigmay X Y : ℝ) (hs : 0 < sigmax)
    (h : 3 * sigmax < Real.sqrt ((X - cx) ^ 2 + (Y - cy) ^ 2)) :
    patchContrib do_ab abx aby cx cy sigmax sigmay X Y = 0 := by
  have hd : 3 < distGrid X Y cx cy sigmax := by
    rw [distGrid, lt_div_iff₀ hs]
    exact h
  have hc : hardCutoff (distGrid X Y cx cy sigmax) = 0 := by
    simp only [hardCutoff]
    rw [if_pos hd]
    norm_num
  cases do_ab <;> simp [patchContrib, hc]

/-- C1 counterexample: the claim makes the indicator 1 at a cell that
coincides exactly with the patch center, so a patch centered on a grid
cell should contribute `1 * exp(0) = 1` there; the code's two-pass update
leaves the `distance` sentinel at 0 for that cell and contributes 0. -/
theorem C1_counterexample :
    patchContrib none 0 0 0 0 1 1 0 0 = 0 ∧
      specContrib none 0 0 0 0 1 1 0 0 = 1 := by
  constructor
  · have h0 : distGrid 0 0 0 0 1 = 0 := by
      simp [distGrid]
    have hc : hardCutoff (distGrid 0 0 0 0 1) = 0 := by
      simp only [hardCutoff, h0]
      norm_num
    simp [patchContrib, hc]
  · have hle : Real.sqrt ((0 - effCenterX none 0 0) ^ 2 +
        (0 - effCenterY none 0 0) ^ 2) ≤ 3 * 1 := by
      simp [effCenterX, effCenterY]
    rw [specContrib, if_pos hle]
    simp [gaussKernel, effCenterX, effCenterY]

/-- C1 amended: the contribution of a patch is the Gaussian about the
effective (aberration-shifted when enabled) center multiplied by an
indicator computed about the NOMINAL center, which is 1 at cells whose
distance `r` from the nominal center satisfies `0 < r ≤ 3σ` and 0 both at
a cell coinciding exactly with the nominal center and beyond `3σ`. -/
theorem C1_amended_contribution (do_ab : Option Unit)
    (abx aby cx cy sigmax sigmay X Y : ℝ) (hs : 0 < sigmax) :
    patchContrib do_ab abx aby cx cy sigmax sigmay X Y =
      if Real.sqrt ((X - cx) ^ 2 + (Y - cy) ^ 2) = 0 ∨
          3 * sigmax < Real.sqrt ((X - cx) ^ 2 + (Y - cy) ^ 2) then 0
      else gaussKernel X Y (effCenterX do_ab cx abx) (effCenterY do_ab cy aby)
        sigmax sigmay := by
  have hsx : sigmax ≠ 0 := ne_of_gt hs
  by_cases h3 : 3 * sigmax < Real.sqrt ((X - cx) ^ 2 + (Y - cy) ^ 2)
  · rw [if_pos (Or.inr h3)]
    exact patchContrib_far_eq_zero do_ab abx aby cx cy sigmax sigmay X Y hs h3
  · by_cases h0 : Real.sqrt ((X - cx) ^ 2 + (Y - cy) ^ 2) = 0
    · rw [if_pos (Or.inl h0)]
      have hd0 : distGrid X Y cx cy sigmax = 0 := by
        rw [distGrid, h0, zero_div]
      have hc : hardCutoff (distGrid X Y cx cy sigmax) = 0 := by
        simp only [hardCutoff, hd0]
        norm_num
      cases do_ab <;> simp [patchContrib, hc]
    · rw [if_neg (by push_neg; exact ⟨h0, not_lt.mp h3⟩)]
      have hdne : distGrid X Y cx cy sigmax ≠ 0 := by
        rw [distGrid]
        exact div_ne_zero h0 hsx
      have hd3 : ¬ 3 < distGrid X Y cx cy sigmax := by
        rw [distGrid, lt_div_iff₀ hs]
        exact h3
      have hc : hardCutoff (distGrid X Y cx cy sigmax) = 1 := by
        simp only [hardCutoff]
        rw [if_neg hd3, if_pos hdne]
      cases do_ab with
      | none =>
          show hardCutoff (distGrid X Y cx cy sigmax) * _ = _
          rw [hc, one_mul]
          rfl
      | some u =>
          show hardCutoff (distGrid X Y cx cy sigmax) * _ = _
          rw [hc, one_mul]
          exact congrArg Real.exp (by simp [effCenterX, effCenterY]; ring)

/-- C1 witness: the amended characterization evaluated with aberration
enabled at a concrete cell strictly inside the cutoff disc. -/
theorem C1_amended_contribution_witness :
    0 < (1 : ℝ) ∧
      patchContrib (some ()) 1 0 0 0 1 1 1 0 =
        (if Real.sqrt ((1 - 0) ^ 2 + ((0 : ℝ) - 0) ^ 2) = 0 ∨
            3 * 1 < Real.sqrt ((1 - 0) ^ 2 + ((0 : ℝ) - 0) ^ 2) then 0
         else gaussKernel 1 0 (effCenterX (some ()) 0 1)
           (effCenterY (some ()) 0 0) 1 1) :=
  ⟨by norm_num, C1_amended_contribution (some ()) 1 0 0 0 1 1 1 0 (by norm_num)⟩

/-- C7: the 2D beam field `Z` is non-negative at every grid cell, and at
every cell lying strictly farther than 3σ from every patch center of
every component (patch widths being positive) the field is exactly
zero. -/
theorem C7_Zfield_nonneg_and_zero_outside (do_ab : Option Unit)
    (comps : List BeamComp) (X Y : ℝ) :
    0 ≤ Zfield do_ab comps X Y ∧
      ((∀ c ∈ comps, 0 < c.width) →
       (∀ c ∈ comps, ∀ pc ∈ c.centers,
          3 * c.width < Real.sqrt ((X - pc.1) ^ 2 + (Y - pc.2) ^ 2)) →
       Zfield do_ab comps X Y = 0) := by
  constructor
  · apply List.sum_nonneg
    intro z hz
    simp only [List.mem_map] at hz
    obtain ⟨c, hc, rfl⟩ := hz
    apply List.sum_nonneg
    intro w hw
    simp only [List.mem_map] at hw
    obtain ⟨pc, hpc, rfl⟩ := hw
    exact patchContrib_nonneg do_ab c.abX c.abY pc.1 pc.2 c.width c.width X Y
  · intro hpos hfar
    apply List.sum_eq_zero
    intro z hz
    simp only [List.mem_map] at hz
    obtain ⟨c, hc, rfl⟩ := hz
    apply List.sum_eq_zero
    intro w hw
    simp only [List.mem_map] at hw
    obtain ⟨pc, hpc, rfl⟩ := hw
    exact patchContrib_far_eq_zero do_ab c.abX c.abY pc.1 pc.2 c.width c.width
      X Y (hpos c hc) (hfar c hc pc hpc)

/-- C7 witness: a single patch of width 1 at the origin, evaluated at the
cell `(10, 10)`, which lies outside the 3σ disc. -/
theorem C7_Zfield_witness :
    0 ≤ Zfield none [⟨1, 0, 0, [(0, 0)]⟩] 10 10 ∧
      Zfield none [⟨1, 0, 0, [(0, 0)]⟩] 10 10 = 0 := by
  have h := C7_Zfield_nonneg_and_zero_outside none [⟨1, 0, 0, [(0, 0)]⟩] 10 10
  refine ⟨h.1, h.2 ?_ ?_⟩
  · intro c hc
    rw [List.mem_singleton] at hc
    subst hc
    norm_num
  · intro c hc pc hpc
    rw [List.mem_singleton] at hc
    subst hc
    rw [List.mem_singleton] at hpc
    subst hpc
    show 3 * 1 < Real.sqrt (((10 : ℝ) - 0) ^ 2 + ((10 : ℝ) - 0) ^ 2)
    have : ((10 : ℝ) - 0) ^ 2 + ((10 : ℝ) - 0) ^ 2 = 200 := by norm_num
    rw [this]
    rw [show (3 : ℝ) * 1 = 3 by norm_num]
    rw [Real.lt_sqrt (by norm_num)]
    norm_num

end

end BeamPy

namespace BeamPy

noncomputable section

/-! ## Rotating vector model (rvm.py lines 5-53)

```
angles = alpha, beta, phi0, psi0
for angle in angles:
    angRad = np.deg2rad(angles)
zeta = alpha + beta
...
for point in points:
    phi = np.deg2rad(xprof[point - 1])
    numer = np.sin(alpha) * np.sin(phi - phi0)
    denom = np.sin(zeta) * np.cos(alpha) - np.cos(zeta) * np.sin(alpha) * np.cos(phi - phi0)
    psi = psi0 + np.arctan(numer/denom)
    if psi < -np.pi/2.: psi = psi + np.pi
    if psi > np.pi/2.:  psi = psi - np.pi
    allpsi.append(np.rad2deg(psi))
```

The conversion loop stores into `angRad`, which is never read, so the
formula consumes the raw degree values of `alpha`, `zeta` and `phi0`.
Angles are exact reals here; the one floating-point behaviour that exact
real arithmetic cannot express is the division: NumPy produces NaN for
`0/0` (modelled as `none`) and `±inf` for `x/0` with `x ≠ 0`, which
`np.arctan` then maps to `±π/2`. -/

/-- NumPy `np.deg2rad`. -/
def deg2rad (x : ℝ) : ℝ := x * (Real.pi / 180)

/-- NumPy `np.rad2deg`. -/
def rad2deg (x : ℝ) : ℝ := x * (180 / Real.pi)

/-- The two sequential wrap steps of rvm.py lines 44-48. -/
def wrapPsi (ps : ℝ) : ℝ :=
  let ps1 := if ps < -(Real.pi / 2) then ps + Real.pi else ps
  if Real.pi / 2 < ps1 then ps1 - Real.pi else ps1

/-- One loop iteration of rvm.py lines 36-51 for the phase sample
`phiDeg = xprof[point - 1]`, with the NumPy `0/0 → NaN` case surfaced as
`none` and `x/0 → ±inf`, `arctan(±inf) = ±π/2` written out. -/
def rvmSample (alpha zeta phi0 psi0 phiDeg : ℝ) : Option ℝ :=
  let phi := deg2rad phiDeg
  let numer := Real.sin alpha * Real.sin (phi - phi0)
  let denom := Real.sin zeta * Real.cos alpha -
    Real.cos zeta * Real.sin alpha * Real.cos (phi - phi0)
  if denom = 0 then
    if numer = 0 then none
    else some (rad2deg (wrapPsi (psi0 +
      (if 0 < numer then Real.pi / 2 else -(Real.pi / 2)))))
  else some (rad2deg (wrapPsi (psi0 + Real.arctan (numer / denom))))

/-- The function `rvm` of rvm.py.  The loop on lines 26-27 only assigns
`angRad`, which nothing reads, and the parameter `psi` is shadowed before
use; both are kept here to mirror the source. -/
def rvm (alpha beta phi0 psi0 psi : ℝ) (xprof : List ℝ) : List (Option ℝ) :=
  let angles := (alpha, beta, phi0, psi0)
  let angRad := (deg2rad angles.1, deg2rad angles.2.1,
    deg2rad angles.2.2.1, deg2rad angles.2.2.2)
  let zeta := alpha + beta
  xprof.map fun xp => rvmSample alpha zeta phi0 psi0 xp

/-- C9's variant of `rvm`: the degree-to-radian conversion loop deleted,
nothing else changed — `sin` and `cos` consume the raw degree values of
`alpha`, `zeta = alpha + beta` and `phi0` directly (only the `xprof`
entries pass through `deg2rad`), and `psi0` in degrees is added directly
to the arctan result in radians. -/
def rvmRaw (alpha beta phi0 psi0 psi : ℝ) (xprof : List ℝ) : List (Option ℝ) :=
  let zeta := alpha + beta
  xprof.map fun xp => rvmSample alpha zeta phi0 psi0 xp

/-- C9: `rvm` returns exactly what the variant without the conversion
loop returns, on every input: the converted tuple `angRad` is dead. -/
theorem C9_conversion_loop_dead (alpha beta phi0 psi0 psi : ℝ)
    (xprof : List ℝ) :
    rvm alpha beta phi0 psi0 psi xprof =
      rvmRaw alpha beta phi0 psi0 psi xprof := rfl

/-- C5 counterexample: the claim puts every returned position angle in
(-90°, 90°].  At `alpha = 0`, `beta = 1`, `phi0 = 0`, `psi0 = 100`,
`xprof = [0]` the denominator is `sin 1 ≠ 0`, the arctan term is 0, and
the single `±π` correction leaves `psi = 100 - π` radians, reported as
`(100 - π)·180/π ≈ 5549.6` degrees — far outside (-90°, 90°]. -/
theorem C5_counterexample :
    rvm 0 1 0 100 0 [0] = [some ((100 - Real.pi) * (180 / Real.pi))] ∧
      90 < (100 - Real.pi) * (180 / Real.pi) := by
  have hpi3 := Real.pi_gt_three
  have hpi4 := Real.pi_lt_d2
  have hsin : Real.sin 1 ≠ 0 :=
    ne_of_gt (Real.sin_pos_of_pos_of_lt_pi (by norm_num) (by linarith))
  constructor
  · show [rvmSample 0 (0 + 1) 0 100 0] = _
    rw [zero_add]
    simp only [rvmSample, deg2rad, zero_mul, sub_zero, Real.sin_zero,
      Real.cos_zero, mul_zero, mul_one, sub_zero]
    rw [if_neg hsin, zero_div, Real.arctan_zero, add_zero]
    have hw : wrapPsi 100 = 100 - Real.pi := by
      have h1 : ¬ (100 : ℝ) < -(Real.pi / 2) := by push_neg; nlinarith
      have h2 : Real.pi / 2 < (100 : ℝ) := by nlinarith
      simp only [wrapPsi]
      rw [if_neg h1, if_pos h2]
    rw [hw, rad2deg]
  · have hpipos : (0 : ℝ) < Real.pi := by linarith
    have hmul : (100 - Real.pi) * (180 / Real.pi) =
        (100 - Real.pi) * 180 / Real.pi := by ring
    rw [hmul, lt_div_iff₀ hpipos]
    nlinarith

/-- C6: the claim says a zero denominator always yields a defined
fallback position angle rather than a propagating NaN.  At `alpha = 0`,
`beta = 0`, `phi0 = 0`, `psi0 = 0`, `xprof = [0]` both the numerator and
the denominator are exactly 0, NumPy evaluates `0/0` to NaN, and the NaN
passes through `arctan`, the wrap and `rad2deg` into the returned list;
the code has no guard.  This theorem evaluates the embedded code at that
failing input: the sample is `none` (NaN), not a defined value. -/
theorem C6_zero_denominator_nan :
    rvm 0 0 0 0 0 [0] = [none] := by
  show [rvmSample 0 (0 + 0) 0 0 0] = _
  rw [add_zero]
  simp only [rvmSample, deg2rad, zero_mul, sub_zero, Real.sin_zero,
    Real.cos_zero, mul_zero, mul_one, zero_sub, sub_zero]
  rw [if_pos (by norm_num), if_pos (by norm_num)]

end

end BeamPy
